import Mathlib

/-!
Verification of the CubitPy python2/python3 proxy bridge
(`cubitpy/cubit_wrapper3.py`, `cubitpy/cubit_wrapper_utility.py`,
`cubitpy/cubitpy_types.py`, `cubitpy/utils.py`).

The development shallowly embeds the wire-value data model and the
operations of the bridge: handle classification (`cubit_item_to_id`),
base-type testing (`is_base_type`), the recursive argument serializer
(`serialize_item`), reply decoding (the tail of
`CubitConnect.get_attribute`), attribute resolution
(`CubitObject.__getattribute__` / `CubitConnect.get_attribute`),
the deletion protocol (`CubitObject.__del__`,
`CubitObjectMain.__del__`, `CubitConnect.send_and_return`),
connection construction (`CubitConnect.__init__`), and geometry-kind
classification (`CubitObject.get_geometry_type`).

Python values that can cross the execnet channel or appear as call
arguments are modelled by the inductive type `PyVal`.  Machine floats
never undergo arithmetic in the modelled code (`float(item)` applied to
a float is the identity), so a float is carried as an opaque integer
content; content `0` stands for `0.0`.  The remote python2 interpreter
is modelled as a pure oracle mapping each sent message to its reply,
and the execnet channel state (`channel count`, trace of sent messages)
is threaded explicitly.
-/

namespace CubitPy

/-- Geometry kinds, from `GeometryType` in `cubitpy_types.py`. -/
inductive GeometryType where
  | vertex
  | curve
  | surface
  | volume
deriving DecidableEq

/-- String for a geometry kind in cubit, from
`GeometryType.get_cubit_string` in `cubitpy_types.py` (the `else`
branch of the source raises `ValueError` but is unreachable: the enum
has exactly these four members). -/
def GeometryType.get_cubit_string : GeometryType → String
  | .vertex => "vertex"
  | .curve => "curve"
  | .surface => "surface"
  | .volume => "volume"

/-- Python values relevant to the bridge.  `bool` is kept separate from
`int` because Python `bool` is a numeric subtype of `int`
(`isinstance(True, int)` holds), and `npFloat64` separate from `float`
because `numpy.float64` is a subclass of Python `float`; both matter to
the serializer's normalization branches.  `obj` is a `CubitObject`
proxy carrying its stored `cubit_id` data list.  `geom` is a
`cupy.geometry` (`GeometryType`) enum member.  `other` stands for any
further Python object, identified by an opaque tag. -/
inductive PyVal where
  | none
  | bool (b : Bool)
  | int (n : Int)
  | float (x : Int)
  | npFloat64 (x : Int)
  | str (s : String)
  | list (xs : List PyVal)
  | tuple (xs : List PyVal)
  | ndarray (xs : List PyVal)
  | obj (cubit_id : PyVal)
  | geom (g : GeometryType)
  | other (tag : Nat)

/-- Python exceptions raised by the modelled code.  `typeErrorExpected`
is the `TypeError("Expected cubit object, or base_type, got {}!")` of
`CubitConnect.get_attribute`, carrying the offending value;
`typeErrorWrongType` is the `TypeError("Wrong type {}")` of
`CubitObject.__init__`; `typeErrorMsg` is a `TypeError` with a fixed
message (`CubitObject.get_geometry_type`); `valueErrorInt` is the
`ValueError` raised by the builtin `int()` on a non-numeric string,
carrying that string; `valueErrorMsg` is a `ValueError` with a fixed
message (`CubitConnect.__init__`). -/
inductive PyError where
  | typeErrorExpected (got : PyVal)
  | typeErrorWrongType (got : PyVal)
  | typeErrorMsg (msg : String)
  | valueErrorInt (s : String)
  | valueErrorMsg (msg : String)

/-- Python `str.startswith`. -/
def strStartsWith (s pre : String) : Bool := pre.toList.isPrefixOf s.toList

/-- Python string slicing `s[n:]`. -/
def strDrop (s : String) (n : Nat) : String := ⟨s.toList.drop n⟩

/-- Numeric value of a digit string. -/
def digitsVal (cs : List Char) : Nat :=
  cs.foldl (fun a c => 10 * a + (c.toNat - Char.toNat '0')) 0

/-- Parse a non-empty all-digit character list. -/
def parseDigits (cs : List Char) : Option Nat :=
  if cs ≠ [] ∧ cs.all Char.isDigit then some (digitsVal cs) else Option.none

/-- The Python builtin `int()` applied to a string: optional
surrounding whitespace, an optional sign, then decimal digits;
anything else raises `ValueError` (modelled as `Option.none`).
Digit-group underscores accepted by CPython are not modelled; they
never occur in handle tokens, which are produced from `str(id(obj))`. -/
def pyIntOfString (s : String) : Option Int :=
  let cs := ((s.toList.dropWhile Char.isWhitespace).reverse.dropWhile
    Char.isWhitespace).reverse
  match cs with
  | '+' :: rest => (parseDigits rest).map Int.ofNat
  | '-' :: rest => (parseDigits rest).map (fun n => -(n : Int))
  | _ => (parseDigits cs).map Int.ofNat

/-- Fixed handle token marker, from `object_to_id` and
`cubit_item_to_id` in `cubit_wrapper_utility.py`. -/
def handleIdTag : String := "cp2t3id_"

/-- Handle classification, from `cubit_item_to_id` in
`cubit_wrapper_utility.py`.  Returns `.ok (some n)` when the input is a
non-empty Python list whose first element is a string carrying the
fixed marker followed by the decimal digits of `n`; `.ok none` when the
input fails one of the guards; `.error` when the first element carries
the marker but its remainder is rejected by `int()` (the source's
`int(cubit_data_list[0][8:])` raises `ValueError` there). -/
def cubit_item_to_id : PyVal → Except PyError (Option Int)
  | .list (x :: _) =>
    match x with
    | .str s =>
      if strStartsWith s handleIdTag then
        match pyIntOfString (strDrop s 8) with
        | some n => .ok (some n)
        | Option.none => .error (.valueErrorInt (strDrop s 8))
      else .ok Option.none
    | _ => .ok Option.none
  | _ => .ok Option.none

/-- Base-type test, from `is_base_type` in `cubit_wrapper_utility.py`.
Python `isinstance` admits `bool` as `int` and `numpy.float64` as
`float`, so both count as base types. -/
def is_base_type : PyVal → Bool
  | .str _ => true
  | .bool _ => true
  | .int _ => true
  | .float _ => true
  | .npFloat64 _ => true
  | .none => true
  | _ => false

mutual

/-- Argument serializer, from the nested `serialize_item` in
`CubitConnect.get_attribute` (`cubit_wrapper3.py`).  Branch order
follows the source: sequences (tuple / list / numpy array) recurse
elementwise; a `CubitObject` becomes its `cubit_id`; `float(item)`
normalizes floats and float subclasses; `int(item)` normalizes
integers and the integer subtype `bool`; a geometry enum member
becomes its cubit string; everything else passes through unchanged. -/
def serialize_item : PyVal → PyVal
  | .tuple xs => .list (serialize_list xs)
  | .list xs => .list (serialize_list xs)
  | .ndarray xs => .list (serialize_list xs)
  | .obj cid => cid
  | .float x => .float x
  | .npFloat64 x => .float x
  | .bool b => .int (if b then 1 else 0)
  | .int n => .int n
  | .geom g => .str g.get_cubit_string
  | v => v

/-- Elementwise serialization of a Python sequence, the loop
`for sub_item in item` of `serialize_item`. -/
def serialize_list : List PyVal → List PyVal
  | [] => []
  | x :: xs => serialize_item x :: serialize_list xs

end

/-- Constructing a `CubitObject`, from `CubitObject.__init__` in
`cubit_wrapper3.py`: the handle classification of the data list is
checked; classification `None` raises `TypeError("Wrong type {}")`
(an exception raised inside `cubit_item_to_id` itself propagates);
otherwise the data list is stored as the proxy's `cubit_id`. -/
def CubitObject_mk (cubit_data_list : PyVal) : Except PyError PyVal :=
  match cubit_item_to_id cubit_data_list with
  | .error e => .error e
  | .ok Option.none => .error (.typeErrorWrongType cubit_data_list)
  | .ok (some _) => .ok (.obj cubit_data_list)

/-- Decoding of the elements of a list reply, the
`for item in cubit_return` loop of `CubitConnect.get_attribute`:
a handle element becomes a new proxy, a base-type element is kept, any
other element raises `TypeError` immediately (no partial list is
returned). -/
def decode_list : List PyVal → Except PyError (List PyVal)
  | [] => .ok []
  | item :: rest =>
    match cubit_item_to_id item with
    | .error e => .error e
    | .ok (some _) =>
      match CubitObject_mk item with
      | .error e => .error e
      | .ok p =>
        match decode_list rest with
        | .error e => .error e
        | .ok ps => .ok (p :: ps)
    | .ok Option.none =>
      if is_base_type item then
        match decode_list rest with
        | .error e => .error e
        | .ok ps => .ok (item :: ps)
      else .error (.typeErrorExpected item)

/-- Decoding of a reply, from the tail of the nested `function` in
`CubitConnect.get_attribute` (`cubit_wrapper3.py`, the chain starting
at `if cubit_item_to_id(cubit_return) is not None`): a handle reply
becomes a new proxy; a list reply is decoded elementwise; a base-type
reply is returned unchanged; anything else raises `TypeError` carrying
the reply. -/
def decode_return (cubit_return : PyVal) : Except PyError PyVal :=
  match cubit_item_to_id cubit_return with
  | .error e => .error e
  | .ok (some _) => CubitObject_mk cubit_return
  | .ok Option.none =>
    match cubit_return with
    | .list items =>
      match decode_list items with
      | .error e => .error e
      | .ok ps => .ok (.list ps)
    | v => if is_base_type v then .ok v else .error (.typeErrorExpected v)

/-- Python truthiness, used by the source's
`if self.send_and_return(["iscallable", ...])` and
`if self.isinstance(...)`.  A float is falsy exactly when its content
stands for `0.0` (content `0`); proxies, enum members and generic
objects are truthy.  NumPy raises on the truthiness of a
multi-element array; replies never contain arrays, and the array case
here follows the list case. -/
def truthy : PyVal → Bool
  | .none => false
  | .bool b => b
  | .int n => n != 0
  | .float x => x != 0
  | .npFloat64 x => x != 0
  | .str s => s != ""
  | .list xs => !xs.isEmpty
  | .tuple xs => !xs.isEmpty
  | .ndarray xs => !xs.isEmpty
  | .obj _ => true
  | .geom _ => true
  | .other _ => true

/-- Channel-side state of a `CubitConnect`: the number of open execnet
channels of the gateway, and the trace of messages sent so far. -/
structure ConnState where
  channels : Nat
  sent : List PyVal

/-- Message exchange, from `CubitConnect.send_and_return` in
`cubit_wrapper3.py`.  The remote python2 interpreter is a pure oracle
from messages to replies.  When `check_number_of_channels` is set and
the gateway has no remaining channel, the function returns Python
`None` without touching the channel; otherwise the message is sent
(appended to the trace) and the oracle's reply returned. -/
def send_and_return (oracle : PyVal → PyVal) (argument_list : PyVal)
    (check_number_of_channels : Bool) (st : ConnState) : PyVal × ConnState :=
  if check_number_of_channels ∧ st.channels = 0 then (.none, st)
  else (oracle argument_list, ⟨st.channels, st.sent ++ [argument_list]⟩)

/-- Wire shape of the callable check `["iscallable", handle, name]`. -/
def iscallableMsg (cubit_id : PyVal) (name : String) : PyVal :=
  .list [.str "iscallable", cubit_id, .str name]

/-- Wire shape of a method call `[handle, method_name, encoded_args]`. -/
def methodCallMsg (cubit_id : PyVal) (name : String) (arguments : PyVal) :
    PyVal :=
  .list [cubit_id, .str name, arguments]

/-- Wire shape of the deletion message `["delete", handle]`. -/
def deleteMsg (cubit_id : PyVal) : PyVal := .list [.str "delete", cubit_id]

/-- Wire shape of the geometry check `["isinstance", handle, name]`. -/
def isinstanceMsg (cubit_id : PyVal) (geom_type : String) : PyVal :=
  .list [.str "isinstance", cubit_id, .str geom_type]

/-- The nested `function` closure of `CubitConnect.get_attribute`:
serialize the positional-argument tuple, send
`[cubit_id, name, arguments]`, and decode the reply.  The log-file
side channel of the source (truncate before the call, print after) is
I/O-only and does not affect the returned value or the message
trace. -/
def attr_function (oracle : PyVal → PyVal) (cubit_id : PyVal) (name : String)
    (args : List PyVal) (st : ConnState) :
    Except PyError PyVal × ConnState :=
  let arguments := serialize_item (.tuple args)
  let r := send_and_return oracle (methodCallMsg cubit_id name arguments)
    false st
  (decode_return r.1, r.2)

/-- Result of resolving an attribute on a proxy: either a callable
closure (not yet invoked) or an already-computed value (or the
exception computing it raised). -/
inductive AttrRes where
  | callable (f : List PyVal → ConnState → Except PyError PyVal × ConnState)
  | value (r : Except PyError PyVal)

/-- Remote attribute resolution, from `CubitConnect.get_attribute` in
`cubit_wrapper3.py`: ask `["iscallable", handle, name]`; on a truthy
reply return the closure itself, otherwise return the result of
invoking it with no arguments. -/
def get_attribute (oracle : PyVal → PyVal) (cubit_id : PyVal) (name : String)
    (st : ConnState) : AttrRes × ConnState :=
  let r := send_and_return oracle (iscallableMsg cubit_id name) false st
  if truthy r.1 then (.callable (attr_function oracle cubit_id name), r.2)
  else
    let v := attr_function oracle cubit_id name [] r.2
    (.value v.1, v.2)

/-- Attribute access on a proxy, from `CubitObject.__getattribute__` in
`cubit_wrapper3.py`: first the ordinary Python attribute lookup on the
local object (instance attributes such as `cubit_id` and the methods
defined on the class, modelled by the map `localAttr`); only on
`AttributeError` is the name resolved remotely through
`CubitConnect.get_attribute`. -/
def CubitObject_getattribute (oracle : PyVal → PyVal)
    (localAttr : String → Option PyVal) (cubit_id : PyVal) (name : String)
    (st : ConnState) : AttrRes × ConnState :=
  match localAttr name with
  | some v => (.value (.ok v), st)
  | Option.none => get_attribute oracle cubit_id name st

/-- Proxy release, from `CubitObject.__del__` in `cubit_wrapper3.py`:
send `["delete", cubit_id]` with `check_number_of_channels=True`; the
reply is discarded. -/
def CubitObject_del (oracle : PyVal → PyVal) (cubit_id : PyVal)
    (st : ConnState) : ConnState :=
  (send_and_return oracle (deleteMsg cubit_id) true st).2

/-- Root-proxy release, from `CubitObjectMain.__del__` in
`cubit_wrapper3.py`: `pass`. -/
def CubitObjectMain_del (st : ConnState) : ConnState := st

/-- A local proxy instance: whether it is the root proxy
(a `CubitObjectMain`) and its stored handle data list. -/
structure Proxy where
  isMain : Bool
  cubit_id : PyVal

/-- Release of one proxy instance, dispatching between
`CubitObjectMain.__del__` and `CubitObject.__del__`. -/
def proxy_del (oracle : PyVal → PyVal) (p : Proxy) (st : ConnState) :
    ConnState :=
  if p.isMain then CubitObjectMain_del st
  else CubitObject_del oracle p.cubit_id st

/-- Release of a sequence of proxy instances, one `__del__` per
instance, in order.  The host runtime invokes `__del__` exactly once
per instance, so each instance occurs once in the sequence. -/
def release_proxies (oracle : PyVal → PyVal) (ps : List Proxy)
    (st : ConnState) : ConnState :=
  ps.foldl (fun s p => proxy_del oracle p s) st

/-- Release of a sequence of plain (non-root) proxies given by their
handles. -/
def release_handles (oracle : PyVal → PyVal) (hs : List PyVal)
    (st : ConnState) : ConnState :=
  hs.foldl (fun s h => CubitObject_del oracle h s) st

/-- Outcome of `CubitConnect.__init__` relevant to configuration:
whether log-capture mode (`self.log_check`) is on, the final cubit
launch arguments, and the `["init", arguments]` message subsequently
sent. -/
structure InitConfig where
  log_check : Bool
  final_args : List String
  init_msg : PyVal

/-- Connection construction, from `CubitConnect.__init__` in
`cubit_wrapper3.py`: a missing cubit path raises
`ValueError("Path to cubit was not given!")`; otherwise the launch
arguments are scanned for one starting with `"-log="`; when none is
found, `["-log", temp_log]` is appended (the temporary log file path
`cupy.temp_log` is a configuration value, passed here as `temp_log`)
and log-capture mode is enabled.  `init_msg` is the
`["init", cubit_arguments]` message then sent to python2. -/
def CubitConnect_init (cubit_arguments : List String)
    (cubit_bin_path : Option String) (temp_log : String) :
    Except PyError InitConfig :=
  match cubit_bin_path with
  | Option.none => .error (.valueErrorMsg "Path to cubit was not given!")
  | some _ =>
    let log_given := cubit_arguments.any (fun arg => strStartsWith arg "-log=")
    let final_args :=
      if log_given then cubit_arguments
      else cubit_arguments ++ ["-log", temp_log]
    .ok ⟨!log_given,
      final_args,
      .list [.str "init", .list (final_args.map PyVal.str)]⟩

/-- Geometry check on a proxy, from `CubitObject.isinstance` in
`cubit_wrapper3.py`: send `["isinstance", cubit_id, geom_type]` and
return the reply. -/
def CubitObject_isinstance (oracle : PyVal → PyVal) (cubit_id : PyVal)
    (geom_type : String) (st : ConnState) : PyVal × ConnState :=
  send_and_return oracle (isinstanceMsg cubit_id geom_type) false st

/-- Geometry-kind classification, from `CubitObject.get_geometry_type`
in `cubit_wrapper3.py`: the categories are probed in the fixed order
vertex, curve, surface, volume; the first truthy `isinstance` reply
determines the kind; when none matches,
`TypeError("The item is not a valid geometry!")` is raised. -/
def get_geometry_type (oracle : PyVal → PyVal) (cubit_id : PyVal)
    (st : ConnState) : Except PyError GeometryType × ConnState :=
  let r1 := CubitObject_isinstance oracle cubit_id "cubitpy_vertex" st
  if truthy r1.1 then (.ok .vertex, r1.2)
  else
    let r2 := CubitObject_isinstance oracle cubit_id "cubitpy_curve" r1.2
    if truthy r2.1 then (.ok .curve, r2.2)
    else
      let r3 := CubitObject_isinstance oracle cubit_id "cubitpy_surface" r2.2
      if truthy r3.1 then (.ok .surface, r3.2)
      else
        let r4 := CubitObject_isinstance oracle cubit_id "cubitpy_volume" r3.2
        if truthy r4.1 then (.ok .volume, r4.2)
        else (.error (.typeErrorMsg "The item is not a valid geometry!"), r4.2)

/-- Whether a value is a non-empty Python list whose first element is a
string starting with the handle marker: exactly the inputs on which
`cubit_item_to_id` attempts integer parsing of the token remainder. -/
def hasHandleTag : PyVal → Bool
  | .list (.str s :: _) => strStartsWith s handleIdTag
  | _ => false

/-- Whether handle classification recognizes the value as a handle. -/
def isHandleB (v : PyVal) : Bool :=
  match cubit_item_to_id v with
  | .ok (some _) => true
  | _ => false

/-- Whether handle classification completes without raising. -/
def classifyOk (v : PyVal) : Bool :=
  match cubit_item_to_id v with
  | .ok _ => true
  | .error _ => false

/-- Spec-side shape test: a list reply each of whose elements is a
recognized handle or a base-type value. -/
def isGoodListB : PyVal → Bool
  | .list xs => xs.all (fun x => isHandleB x || is_base_type x)
  | _ => false

mutual

/-- Every proxy occurring in a value stores a data list that handle
classification recognizes. -/
def wellFormedProxies : PyVal → Bool
  | .obj cid => isHandleB cid
  | .list xs => wellFormedProxiesList xs
  | .tuple xs => wellFormedProxiesList xs
  | .ndarray xs => wellFormedProxiesList xs
  | _ => true

/-- Elementwise form of `wellFormedProxies`. -/
def wellFormedProxiesList : List PyVal → Bool
  | [] => true
  | x :: xs => wellFormedProxies x && wellFormedProxiesList xs

end

/-- Remote side answering every message with Python `True`. -/
def oracleTrue : PyVal → PyVal := fun _ => .bool true

/-- Remote side answering every message with Python `False`. -/
def oracleFalse : PyVal → PyVal := fun _ => .bool false

/-- Remote side classifying the queried object as a curve and
answering `False` to everything else. -/
def oracleCurve : PyVal → PyVal
  | .list [.str "isinstance", _, .str "cubitpy_curve"] => .bool true
  | _ => .bool false

/-- A concrete well-formed handle data list. -/
def handle0 : PyVal := .list [.str "cp2t3id_7", .str "<Surface 7>"]

/-- A connection state with one open channel and an empty trace. -/
def st0 : ConnState := ⟨1, []⟩

/-- A connection state after teardown: no channel left. -/
def stClosed : ConnState := ⟨0, []⟩

/-- Local Python attribute lookup on a `CubitObject` instance: the
constructor stores the handle under the instance attribute `cubit_id`
(ordinary `object.__getattribute__` finds it without any remote
traffic).  The class-level methods are omitted; one local name
suffices for the statements below. -/
def proxy_local_attrs (cid : PyVal) : String → Option PyVal :=
  fun name => if name = "cubit_id" then some cid else Option.none

/-- Three proxy instances: two plain proxies aliasing the same remote
handle and, between them, the root proxy. -/
def proxies0 : List Proxy := [⟨false, handle0⟩, ⟨true, handle0⟩, ⟨false, handle0⟩]

/-! Helper lemmas shared by the claim theorems. -/

/-- Elementwise serialization is a `List.map`. -/
theorem serialize_list_eq_map (xs : List PyVal) :
    serialize_list xs = xs.map serialize_item := by
  induction xs with
  | nil => rfl
  | cons x rest ih => simp [serialize_list, ih]

/-- On inputs without the handle marker, classification returns the
not-a-handle result. -/
theorem cubit_item_to_id_of_no_tag (v : PyVal) (h : hasHandleTag v = false) :
    cubit_item_to_id v = .ok Option.none := by
  cases v <;> try rfl
  case list xs =>
    cases xs with
    | nil => rfl
    | cons x rest =>
      cases x <;> try rfl
      case str s =>
        have hs : strStartsWith s handleIdTag = false := by
          simpa [hasHandleTag] using h
        simp [cubit_item_to_id, hs]

/-- A successfully constructed proxy stores exactly the data list it
was built from, and that data list classifies as a handle. -/
theorem CubitObject_mk_ok (d v : PyVal) (h : CubitObject_mk d = .ok v) :
    v = .obj d ∧ ∃ n, cubit_item_to_id d = .ok (some n) := by
  unfold CubitObject_mk at h
  rcases hc : cubit_item_to_id d with e | o
  · rw [hc] at h; exact absurd h (by simp)
  · rcases o with _ | n
    · rw [hc] at h; exact absurd h (by simp)
    · rw [hc] at h
      refine ⟨by injection h with h; exact h.symm, n, ?_⟩
      rfl

/-- Base-type values contain no proxies. -/
theorem wellFormedProxies_of_base (v : PyVal) (h : is_base_type v = true) :
    wellFormedProxies v = true := by
  cases v <;> first | rfl | exact absurd h (by simp [is_base_type])

/-! Claim C2: totality of handle classification. -/

/-- C2 counterexample: on the input `["cp2t3id_xx", "<Vertex>"]` — a
sequence whose first element begins with the fixed marker but is not
followed by decimal digits — `cubit_item_to_id` does not return the
not-a-handle result: the `int()` conversion of the remainder raises
`ValueError`, so classification is not total and the claim is false. -/
theorem c2_counterexample :
    cubit_item_to_id (.list [.str "cp2t3id_xx", .str "<Vertex>"]) =
      .error (.valueErrorInt "xx") := rfl

/-- C2 (amended): handle classification never raises on any input whose
first element does not begin with the marker `"cp2t3id_"` — for all
such inputs (non-lists, empty lists, lists whose first element is not
a string or is an unmarked string) it returns the not-a-handle result;
when the first element does begin with the marker, it returns the
decimal integer following the marker if the remainder parses as an
integer, and raises `ValueError` carrying the remainder otherwise. -/
theorem c2_classification_total_unless_marked (v : PyVal) :
    (hasHandleTag v = false → cubit_item_to_id v = .ok Option.none) ∧
    (∀ s rest n, v = .list (.str s :: rest) →
      strStartsWith s handleIdTag = true →
      pyIntOfString (strDrop s 8) = some n →
      cubit_item_to_id v = .ok (some n)) ∧
    (∀ s rest, v = .list (.str s :: rest) →
      strStartsWith s handleIdTag = true →
      pyIntOfString (strDrop s 8) = Option.none →
      cubit_item_to_id v = .error (.valueErrorInt (strDrop s 8))) := by
  refine ⟨cubit_item_to_id_of_no_tag v, ?_, ?_⟩
  · intro s rest n heq htag hint
    subst heq
    simp [cubit_item_to_id, htag, hint]
  · intro s rest heq htag hint
    subst heq
    simp [cubit_item_to_id, htag, hint]

/-- C2 witness: the well-formed handle `["cp2t3id_42", "<Vertex>"]`
classifies as the integer 42. -/
theorem c2_witness :
    cubit_item_to_id (.list [.str "cp2t3id_42", .str "<Vertex>"]) =
      .ok (some 42) :=
  (c2_classification_total_unless_marked
      (.list [.str "cp2t3id_42", .str "<Vertex>"])).2.1
    "cp2t3id_42" [.str "<Vertex>"] 42 rfl rfl rfl

/-! Claim C5: serializer round-trip on primitives. -/

/-- C5: encoding an integer, float, or string call value with the
serializer and decoding it as a reply returns the value unchanged. -/
theorem c5_round_trip :
    (∀ n : Int, decode_return (serialize_item (.int n)) = .ok (.int n)) ∧
    (∀ x : Int, decode_return (serialize_item (.float x)) = .ok (.float x)) ∧
    (∀ s : String, decode_return (serialize_item (.str s)) = .ok (.str s)) :=
  ⟨fun _ => rfl, fun _ => rfl, fun _ => rfl⟩

/-! Claim C6: shape of the serializer. -/

/-- C6: the serializer maps every sequence (list, tuple, numpy array)
to the Python list of its elementwise encodings, preserving order and
nesting (the recursion being `serialize_item` itself); a proxy becomes
exactly its stored handle; floats and the float subclass
`numpy.float64` are normalized to canonical floats; integers and the
integer subtype `bool` are normalized to canonical integers; geometry
enum members become their canonical cubit strings; every other value
(`None`, strings, other objects) passes through unchanged. -/
theorem c6_serializer_shape :
    (∀ xs, serialize_item (.list xs) = .list (xs.map serialize_item) ∧
      serialize_item (.tuple xs) = .list (xs.map serialize_item) ∧
      serialize_item (.ndarray xs) = .list (xs.map serialize_item)) ∧
    (∀ cid, serialize_item (.obj cid) = cid) ∧
    (∀ x, serialize_item (.float x) = .float x) ∧
    (∀ x, serialize_item (.npFloat64 x) = .float x) ∧
    (∀ n, serialize_item (.int n) = .int n) ∧
    (∀ b, serialize_item (.bool b) = .int (if b then 1 else 0)) ∧
    (∀ g, serialize_item (.geom g) = .str g.get_cubit_string) ∧
    serialize_item .none = .none ∧
    (∀ s, serialize_item (.str s) = .str s) ∧
    (∀ t, serialize_item (.other t) = .other t) := by
  refine ⟨fun xs => ?_, fun _ => rfl, fun _ => rfl, fun _ => rfl, fun _ => rfl,
    fun _ => rfl, fun _ => rfl, rfl, fun _ => rfl, fun _ => rfl⟩
  refine ⟨?_, ?_, ?_⟩ <;> simp [serialize_item, serialize_list_eq_map]

/-! Claim C1: attribute resolution dichotomy. -/

/-- C1 counterexample: resolving the attribute name `cubit_id` on a
proxy returns the locally stored handle immediately — the trace stays
empty, so the connection was never asked `iscallable` and no remote
call was made — refuting the claim that resolution first asks
`iscallable` for every attribute name. -/
theorem c1_counterexample :
    CubitObject_getattribute oracleTrue (proxy_local_attrs handle0) handle0
        "cubit_id" st0 = (.value (.ok handle0), st0) ∧
      st0.sent = [] :=
  ⟨rfl, rfl⟩

/-- C1 (amended): for every attribute name that ordinary local Python
lookup does not find on the proxy, resolution first sends
`["iscallable", handle, name]`; if the reply is truthy, it returns a
callable closure — the closure that serializes arguments and performs
the method call — having sent nothing but the `iscallable` query; if
the reply is falsy, it immediately also sends the zero-argument call
`[handle, name, []]` and returns the decoded reply, so there is no
bare property access distinct from a zero-argument call. -/
theorem c1_attribute_resolution_dichotomy (oracle : PyVal → PyVal)
    (localAttr : String → Option PyVal) (cid : PyVal) (name : String)
    (st : ConnState) (hlocal : localAttr name = Option.none) :
    (truthy (oracle (iscallableMsg cid name)) = true →
      CubitObject_getattribute oracle localAttr cid name st =
        (.callable (attr_function oracle cid name),
         ⟨st.channels, st.sent ++ [iscallableMsg cid name]⟩)) ∧
    (truthy (oracle (iscallableMsg cid name)) = false →
      CubitObject_getattribute oracle localAttr cid name st =
        (.value (decode_return (oracle (methodCallMsg cid name (.list [])))),
         ⟨st.channels, st.sent ++ [iscallableMsg cid name,
            methodCallMsg cid name (.list [])]⟩)) := by
  constructor
  · intro htrue
    simp [CubitObject_getattribute, hlocal, get_attribute, send_and_return,
      htrue]
  · intro hfalse
    simp [CubitObject_getattribute, hlocal, get_attribute, send_and_return,
      hfalse, attr_function, serialize_item, serialize_list]

/-- C1 witness: with a remote side reporting `id` as not callable, the
resolution of `id` performs the zero-argument call and returns its
decoded value. -/
theorem c1_witness :
    CubitObject_getattribute oracleFalse (proxy_local_attrs handle0) handle0
      "id" st0 =
      (.value (decode_return (oracleFalse (methodCallMsg handle0 "id"
        (.list [])))),
       ⟨st0.channels, st0.sent ++ [iscallableMsg handle0 "id",
          methodCallMsg handle0 "id" (.list [])]⟩) :=
  (c1_attribute_resolution_dichotomy oracleFalse (proxy_local_attrs handle0)
    handle0 "id" st0 rfl).2 rfl

/-! Claim C3: deletion is a no-op after teardown. -/

/-- C3: once the channel count is 0, releasing a proxy — and releasing
any number of proxies in sequence — leaves the connection state
untouched: `__del__` passes `check_number_of_channels=True`, so
`send_and_return` returns before touching the channel and no deletion
message is sent; the release functions are total, so no error is
raised. -/
theorem c3_deletion_noop_after_teardown (oracle : PyVal → PyVal)
    (handles : List PyVal) (st : ConnState) (h : st.channels = 0) :
    (∀ cid, CubitObject_del oracle cid st = st) ∧
    release_handles oracle handles st = st := by
  have hone : ∀ cid, CubitObject_del oracle cid st = st := by
    intro cid
    simp [CubitObject_del, send_and_return, h]
  refine ⟨hone, ?_⟩
  induction handles with
  | nil => rfl
  | cons hd tl ih =>
    show release_handles oracle tl (CubitObject_del oracle hd st) = st
    rw [hone hd]
    exact ih

/-- C3 witness: with the channel count at 0, releasing two outstanding
proxies of the same handle changes nothing. -/
theorem c3_witness :
    release_handles oracleTrue [handle0, handle0] stClosed = stClosed :=
  (c3_deletion_noop_after_teardown oracleTrue [handle0, handle0] stClosed
    rfl).2

/-! Claim C4: one deletion message per released proxy instance. -/

/-- Releasing a proxy never changes the channel count. -/
theorem proxy_del_channels (oracle : PyVal → PyVal) (p : Proxy)
    (st : ConnState) : (proxy_del oracle p st).channels = st.channels := by
  simp only [proxy_del, CubitObjectMain_del, CubitObject_del, send_and_return]
  split
  · rfl
  · split <;> rfl

/-- C4: on a live connection, releasing a plain proxy sends exactly the
one message `["delete", handle]`; releasing the root proxy is a pure
no-op; and releasing any sequence of proxy instances appends exactly
one deletion message per non-root instance, in order — in particular
two instances aliasing the same remote id both send it.  The host
runtime invokes `__del__` once per instance, so an instance appears
once in the release sequence and never deletes twice. -/
theorem c4_delete_once_per_instance (oracle : PyVal → PyVal)
    (ps : List Proxy) (st : ConnState) (h : st.channels ≠ 0) :
    (∀ cid, (CubitObject_del oracle cid st).sent =
      st.sent ++ [deleteMsg cid]) ∧
    (∀ p : Proxy, p.isMain = true → proxy_del oracle p st = st) ∧
    (release_proxies oracle ps st).sent =
      st.sent ++ (ps.filter (fun p => !p.isMain)).map
        (fun p => deleteMsg p.cubit_id) := by
  refine ⟨fun cid => by simp [CubitObject_del, send_and_return, h],
    fun p hp => by simp [proxy_del, hp, CubitObjectMain_del], ?_⟩
  induction ps generalizing st with
  | nil => simp [release_proxies]
  | cons p tl ih =>
    have hch : (proxy_del oracle p st).channels ≠ 0 := by
      rw [proxy_del_channels]; exact h
    have step : release_proxies oracle (p :: tl) st =
        release_proxies oracle tl (proxy_del oracle p st) := rfl
    rw [step, ih (proxy_del oracle p st) hch]
    cases hp : p.isMain with
    | true => simp [proxy_del, hp, CubitObjectMain_del]
    | false => simp [proxy_del, hp, CubitObject_del, send_and_return, h]

/-- C4 witness: releasing two aliases of the same handle with the root
proxy between them sends the deletion message exactly twice. -/
theorem c4_witness :
    (release_proxies oracleTrue proxies0 st0).sent =
      [deleteMsg handle0, deleteMsg handle0] :=
  ((c4_delete_once_per_instance oracleTrue proxies0 st0
    (by decide)).2.2).trans rfl

/-! Claim C7: decode errors. -/

/-- Base-type values never classify as handles (and classification
never raises on them). -/
theorem classify_of_base (x : PyVal) (h : is_base_type x = true) :
    cubit_item_to_id x = .ok Option.none := by
  cases x <;> first | rfl | exact absurd h (by simp [is_base_type])

/-- When classification completes without recognizing a handle, its
result is the not-a-handle value. -/
theorem classify_ok_none_of_not_handle (x : PyVal)
    (h1 : classifyOk x = true) (h2 : isHandleB x = false) :
    cubit_item_to_id x = .ok Option.none := by
  rcases hc : cubit_item_to_id x with e | o
  · simp [classifyOk, hc] at h1
  · rcases o with _ | k
    · rfl
    · simp [isHandleB, hc] at h2

/-- A recognized handle classifies as `some`. -/
theorem classify_some_of_handle (x : PyVal) (h : isHandleB x = true) :
    ∃ n, cubit_item_to_id x = .ok (some n) := by
  rcases hc : cubit_item_to_id x with e | o
  · simp [isHandleB, hc] at h
  · rcases o with _ | k
    · simp [isHandleB, hc] at h
    · exact ⟨k, rfl⟩

/-- Elementwise decoding of a list whose members are all handles or
base-type values: handles become proxies, base values are kept. -/
theorem decode_list_all_good (xs : List PyVal)
    (hall : ∀ x ∈ xs, (isHandleB x || is_base_type x) = true) :
    decode_list xs =
      .ok (xs.map (fun x => if isHandleB x then .obj x else x)) := by
  induction xs with
  | nil => rfl
  | cons x rest ih =>
    have hx := hall x (List.mem_cons_self x rest)
    have hrest := ih fun y hy => hall y (List.mem_cons_of_mem x hy)
    cases hh : isHandleB x with
    | true =>
      obtain ⟨n, hn⟩ := classify_some_of_handle x hh
      simp [decode_list, hn, CubitObject_mk, hrest, hh]
    | false =>
      have hb : is_base_type x = true := by simpa [hh] using hx
      have hn : cubit_item_to_id x = .ok Option.none := classify_of_base x hb
      simp [decode_list, hn, hb, hrest, hh]

/-- Elementwise decoding of a list containing a member that is neither
a handle nor a base-type value fails with the `TypeError` carrying an
offending member, provided classification raises on no member. -/
theorem decode_list_first_bad (xs : List PyVal)
    (hcls : ∀ x ∈ xs, classifyOk x = true)
    (hbad : ¬ ∀ x ∈ xs, (isHandleB x || is_base_type x) = true) :
    ∃ w, decode_list xs = .error (.typeErrorExpected w) := by
  induction xs with
  | nil => exact absurd (by simp) hbad
  | cons x rest ih =>
    by_cases hx : (isHandleB x || is_base_type x) = true
    · have hbrest : ¬ ∀ y ∈ rest, (isHandleB y || is_base_type y) = true := by
        intro hall
        exact hbad fun y hy => by
          rcases List.mem_cons.mp hy with h | h
          · subst h; exact hx
          · exact hall y h
      obtain ⟨w, hw⟩ := ih (fun y hy => hcls y (List.mem_cons_of_mem x hy))
        hbrest
      cases hh : isHandleB x with
      | true =>
        obtain ⟨n, hn⟩ := classify_some_of_handle x hh
        exact ⟨w, by simp [decode_list, hn, CubitObject_mk, hw]⟩
      | false =>
        have hb : is_base_type x = true := by simpa [hh] using hx
        have hn := classify_of_base x hb
        exact ⟨w, by simp [decode_list, hn, hb, hw]⟩
    · have hh : isHandleB x = false := by
        cases h : isHandleB x
        · rfl
        · exact absurd (by simp [h]) hx
      have hb : is_base_type x = false := by
        cases h : is_base_type x
        · rfl
        · exact absurd (by simp [h]) hx
      have hn := classify_ok_none_of_not_handle x
        (hcls x (List.mem_cons_self x rest)) hh
      exact ⟨x, by simp [decode_list, hn, hb]⟩

/-- C7 counterexample: the reply `["cp2t3id_x", "a"]` is a list each of
whose elements is a primitive string, so per the claim decoding should
succeed; instead decoding classifies the whole reply, the marked first
token `"cp2t3id_x"` sends `int()` a non-numeric remainder, and a
`ValueError` — not a type error — escapes, so the claimed
if-and-only-if is false. -/
theorem c7_counterexample :
    is_base_type (.str "cp2t3id_x") = true ∧ is_base_type (.str "a") = true ∧
    decode_return (.list [.str "cp2t3id_x", .str "a"]) =
      .error (.valueErrorInt "x") :=
  ⟨rfl, rfl, rfl⟩

/-- C7 (amended): on every reply on which handle classification
completes without raising — of the reply itself and, for a list reply,
of each element — decoding fails with a type error carrying an
offending value if and only if the reply is neither a recognized
handle, nor a list each of whose elements is a handle or a base-type
primitive, nor a base-type primitive; and a list reply of handles and
primitives decodes elementwise with no partial result: each handle
element becomes a new proxy and each primitive element is kept. -/
theorem c7_decode_error_iff (reply : PyVal)
    (h1 : classifyOk reply = true)
    (h2 : ∀ xs, reply = .list xs → ∀ x ∈ xs, classifyOk x = true) :
    ((∃ w, decode_return reply = .error (.typeErrorExpected w)) ↔
      isHandleB reply = false ∧ isGoodListB reply = false ∧
        is_base_type reply = false) ∧
    (∀ xs, reply = .list xs → isHandleB reply = false →
      isGoodListB reply = true →
      decode_return reply =
        .ok (.list (xs.map (fun x => if isHandleB x then .obj x else x)))) := by
  rcases hc : cubit_item_to_id reply with e | o
  · simp [classifyOk, hc] at h1
  · rcases o with _ | k
    · cases reply
      case list xs =>
        have hcx : ∀ x ∈ xs, classifyOk x = true := h2 xs rfl
        by_cases hall : ∀ x ∈ xs, (isHandleB x || is_base_type x) = true
        · have hdl := decode_list_all_good xs hall
          have hdr : decode_return (.list xs) =
              .ok (.list (xs.map (fun x => if isHandleB x then .obj x
                else x))) := by
            simp [decode_return, hc, hdl]
          constructor
          · constructor
            · intro hex
              obtain ⟨w, hw⟩ := hex
              rw [hdr] at hw
              exact absurd hw (by simp)
            · intro hrhs
              have hgf := hrhs.2.1
              have hgt : isGoodListB (.list xs) = true := by
                simp only [isGoodListB, List.all_eq_true]
                exact hall
              rw [hgt] at hgf
              exact absurd hgf (by simp)
          · intro xs' heq _ _
            injection heq with heq
            subst heq
            exact hdr
        · obtain ⟨w, hw⟩ := decode_list_first_bad xs hcx hall
          have hdr : decode_return (.list xs) =
              .error (.typeErrorExpected w) := by
            simp [decode_return, hc, hw]
          constructor
          · constructor
            · intro _
              refine ⟨by simp [isHandleB, hc], ?_, rfl⟩
              cases hgb : isGoodListB (.list xs) with
              | false => rfl
              | true =>
                refine absurd ?_ hall
                simpa only [isGoodListB, List.all_eq_true] using hgb
            · intro _
              exact ⟨w, hdr⟩
          · intro xs' heq _ hgood
            injection heq with heq
            subst heq
            refine absurd ?_ hall
            simpa only [isGoodListB, List.all_eq_true] using hgood
      all_goals
        simp [decode_return, isHandleB, isGoodListB, is_base_type,
          cubit_item_to_id]
    · have hmk : CubitObject_mk reply = .ok (.obj reply) := by
        simp [CubitObject_mk, hc]
      have hdr : decode_return reply = .ok (.obj reply) := by
        simp [decode_return, hc, hmk]
      constructor
      · simp [hdr, isHandleB, hc]
      · intro xs heq hh _
        subst heq
        simp [isHandleB, hc] at hh

/-- C7 witness: a reply list mixing a primitive string and a handle
decodes elementwise — the primitive is kept and the handle becomes a
proxy. -/
theorem c7_witness :
    decode_return (.list [.str "ab", .list [.str "cp2t3id_12", .str "x"]]) =
      .ok (.list [.str "ab", .obj (.list [.str "cp2t3id_12", .str "x"])]) := by
  have h := (c7_decode_error_iff
      (.list [.str "ab", .list [.str "cp2t3id_12", .str "x"]]) rfl ?_).2
    [.str "ab", .list [.str "cp2t3id_12", .str "x"]] rfl rfl rfl
  · exact h.trans rfl
  · intro xs hxs x hx
    cases hxs
    simp only [List.mem_cons, List.not_mem_nil, or_false] at hx
    rcases hx with h | h <;> subst h <;> rfl

/-! Claim C8: connection construction and log capture. -/

/-- C8: constructing a connection with no toolkit binary path raises
the configuration `ValueError`; with a path, log-capture mode is
enabled if and only if no launch argument begins with the log
directive `"-log="`, and exactly in that case the arguments sent in
the `["init", ...]` message are the launch arguments with
`["-log", temp_log]` appended (otherwise they are passed through
unchanged). -/
theorem c8_init_configuration (args : List String) (binPath : Option String)
    (temp_log : String) :
    (binPath = Option.none → CubitConnect_init args binPath temp_log =
      .error (.valueErrorMsg "Path to cubit was not given!")) ∧
    (∀ p, binPath = some p →
      ∃ cfg, CubitConnect_init args binPath temp_log = .ok cfg ∧
        (cfg.log_check = true ↔ ∀ a ∈ args, strStartsWith a "-log=" = false) ∧
        (cfg.log_check = true →
          cfg.final_args = args ++ ["-log", temp_log]) ∧
        (cfg.log_check = false → cfg.final_args = args) ∧
        cfg.init_msg = .list [.str "init",
          .list (cfg.final_args.map PyVal.str)]) := by
  constructor
  · intro h
    subst h
    rfl
  · intro p hp
    subst hp
    cases hlg : args.any (fun arg => strStartsWith arg "-log=") with
    | true =>
      refine ⟨⟨false, args, .list [.str "init", .list (args.map PyVal.str)]⟩,
        by simp [CubitConnect_init, hlg], ?_, ?_, fun _ => rfl, rfl⟩
      · constructor
        · intro hf
          cases hf
        · intro hall
          obtain ⟨a, ha, hpa⟩ := List.any_eq_true.mp hlg
          rw [hall a ha] at hpa
          cases hpa
      · intro hf
        cases hf
    | false =>
      refine ⟨⟨true, args ++ ["-log", temp_log], .list [.str "init",
          .list ((args ++ ["-log", temp_log]).map PyVal.str)]⟩,
        by simp [CubitConnect_init, hlg], ?_, fun _ => rfl, ?_, rfl⟩
      · constructor
        · intro _ a ha
          cases hpa : strStartsWith a "-log=" with
          | false => rfl
          | true =>
            have : args.any (fun arg => strStartsWith arg "-log=") = true :=
              List.any_eq_true.mpr ⟨a, ha, hpa⟩
            rw [this] at hlg
            cases hlg
        · intro _
          rfl
      · intro hf
        cases hf

/-- C8 witness: with a binary path given and no pre-supplied log
directive, log capture is on and the log argument is appended to the
arguments of the init call. -/
theorem c8_witness :
    ∃ cfg, CubitConnect_init ["-nojournal"] (some "/opt/cubit/bin")
        "/tmp/cubitpy.log" = .ok cfg ∧
      (cfg.log_check = true ↔
        ∀ a ∈ ["-nojournal"], strStartsWith a "-log=" = false) ∧
      (cfg.log_check = true →
        cfg.final_args = ["-nojournal"] ++ ["-log", "/tmp/cubitpy.log"]) ∧
      (cfg.log_check = false → cfg.final_args = ["-nojournal"]) ∧
      cfg.init_msg = .list [.str "init",
        .list (cfg.final_args.map PyVal.str)] :=
  (c8_init_configuration ["-nojournal"] (some "/opt/cubit/bin")
    "/tmp/cubitpy.log").2 "/opt/cubit/bin" rfl

/-! Claim C9: geometry-kind classification. -/

/-- C9 counterexample: with a remote side matching no category, the
raised type error carries the fixed message
`"The item is not a valid geometry!"`; the queried object's display
string `"special_object_xyz"` does not occur in it, so the error does
not name the unmatched object as the claim states. -/
theorem c9_counterexample :
    (get_geometry_type oracleFalse
        (.list [.str "cp2t3id_9", .str "special_object_xyz"]) st0).1 =
      .error (.typeErrorMsg "The item is not a valid geometry!") ∧
    ¬ "special_object_xyz".toList <:+:
      "The item is not a valid geometry!".toList :=
  ⟨rfl, by decide⟩

/-- C9 (amended): geometry-kind classification probes the categories
in the fixed order vertex, curve, surface, volume and returns the kind
of the first category whose `isinstance` reply is truthy; when no
category matches it raises a type error with the fixed message
`"The item is not a valid geometry!"`, which does not name the
unmatched object (the error is the same for every object). -/
theorem c9_geometry_first_match (oracle : PyVal → PyVal) (cid : PyVal)
    (st : ConnState) :
    (truthy (oracle (isinstanceMsg cid "cubitpy_vertex")) = true →
      (get_geometry_type oracle cid st).1 = .ok .vertex) ∧
    (truthy (oracle (isinstanceMsg cid "cubitpy_vertex")) = false →
      truthy (oracle (isinstanceMsg cid "cubitpy_curve")) = true →
      (get_geometry_type oracle cid st).1 = .ok .curve) ∧
    (truthy (oracle (isinstanceMsg cid "cubitpy_vertex")) = false →
      truthy (oracle (isinstanceMsg cid "cubitpy_curve")) = false →
      truthy (oracle (isinstanceMsg cid "cubitpy_surface")) = true →
      (get_geometry_type oracle cid st).1 = .ok .surface) ∧
    (truthy (oracle (isinstanceMsg cid "cubitpy_vertex")) = false →
      truthy (oracle (isinstanceMsg cid "cubitpy_curve")) = false →
      truthy (oracle (isinstanceMsg cid "cubitpy_surface")) = false →
      truthy (oracle (isinstanceMsg cid "cubitpy_volume")) = true →
      (get_geometry_type oracle cid st).1 = .ok .volume) ∧
    (truthy (oracle (isinstanceMsg cid "cubitpy_vertex")) = false →
      truthy (oracle (isinstanceMsg cid "cubitpy_curve")) = false →
      truthy (oracle (isinstanceMsg cid "cubitpy_surface")) = false →
      truthy (oracle (isinstanceMsg cid "cubitpy_volume")) = false →
      (get_geometry_type oracle cid st).1 =
        .error (.typeErrorMsg "The item is not a valid geometry!")) := by
  refine ⟨?_, ?_, ?_, ?_, ?_⟩ <;> intros <;>
    simp [get_geometry_type, CubitObject_isinstance, send_and_return, *]

/-- C9 witness: a remote side recognizing the object as a curve (and
nothing else) yields the curve kind. -/
theorem c9_witness :
    (get_geometry_type oracleCurve handle0 st0).1 = .ok .curve :=
  (c9_geometry_first_match oracleCurve handle0 st0).2.1 rfl rfl

/-! Claim C10: every constructed proxy holds a well-formed handle. -/

/-- Decoding propagates an exception raised by classifying the reply. -/
theorem decode_return_classify_error (reply : PyVal) (e : PyError)
    (hc : cubit_item_to_id reply = .error e) :
    decode_return reply = .error e := by
  unfold decode_return
  rw [hc]

/-- Decoding a reply recognized as a handle builds a proxy from it. -/
theorem decode_return_classify_some (reply : PyVal) (k : Int)
    (hc : cubit_item_to_id reply = .ok (some k)) :
    decode_return reply = CubitObject_mk reply := by
  unfold decode_return
  rw [hc]

/-- Decoding a list reply that is not itself a handle decodes it
elementwise. -/
theorem decode_return_list (xs : List PyVal)
    (hc : cubit_item_to_id (.list xs) = .ok Option.none) :
    decode_return (.list xs) =
      match decode_list xs with
      | .error e => .error e
      | .ok ps => .ok (.list ps) := by
  unfold decode_return
  rw [hc]

/-- Elementwise decoding only builds well-formed proxies. -/
theorem decode_list_wellFormed (xs ys : List PyVal)
    (h : decode_list xs = .ok ys) : wellFormedProxiesList ys = true := by
  induction xs generalizing ys with
  | nil =>
    injection h with h
    subst h
    rfl
  | cons x rest ih =>
    rcases hc : cubit_item_to_id x with e | o
    · rw [decode_list, hc] at h
      exact absurd h (by simp)
    · rcases o with _ | k
      · rw [decode_list, hc] at h
        cases hb : is_base_type x with
        | false =>
          rw [hb] at h
          exact absurd h (by simp)
        | true =>
          rw [hb] at h
          rcases hdr : decode_list rest with e' | ps
          · rw [hdr] at h
            exact absurd h (by simp)
          · rw [hdr] at h
            injection h with h
            subst h
            simp only [wellFormedProxiesList, Bool.and_eq_true]
            exact ⟨wellFormedProxies_of_base x hb, ih ps hdr⟩
      · rw [decode_list, hc] at h
        have hmk : CubitObject_mk x = .ok (.obj x) := by
          simp [CubitObject_mk, hc]
        rw [hmk] at h
        rcases hdr : decode_list rest with e' | ps
        · rw [hdr] at h
          exact absurd h (by simp)
        · rw [hdr] at h
          injection h with h
          subst h
          simp only [wellFormedProxiesList, Bool.and_eq_true]
          exact ⟨by simp [wellFormedProxies, isHandleB, hc], ih ps hdr⟩

/-- C10: constructing a proxy succeeds exactly on data lists that
classify as handles — the constructor raises the wrong-type
`TypeError` whenever classification yields the not-a-handle result —
so every constructed proxy stores a classified handle; and every value
produced by reply decoding contains only well-formed proxies, because
new proxies are built only from replies (or reply elements) already
classified as handles. -/
theorem c10_proxy_handle_invariant :
    (∀ d v, CubitObject_mk d = .ok v →
      v = .obj d ∧ ∃ n, cubit_item_to_id d = .ok (some n)) ∧
    (∀ d, cubit_item_to_id d = .ok Option.none →
      CubitObject_mk d = .error (.typeErrorWrongType d)) ∧
    (∀ reply v, decode_return reply = .ok v →
      wellFormedProxies v = true) := by
  refine ⟨CubitObject_mk_ok, fun d h => by simp [CubitObject_mk, h], ?_⟩
  intro reply v h
  rcases hc : cubit_item_to_id reply with e | o
  · rw [decode_return_classify_error reply e hc] at h
    exact Except.noConfusion h
  · rcases o with _ | k
    · cases reply
      case list xs =>
        rw [decode_return_list xs hc] at h
        rcases hdl : decode_list xs with e' | ps
        · rw [hdl] at h
          exact Except.noConfusion h
        · rw [hdl] at h
          have h2 : (Except.ok (PyVal.list ps) : Except PyError PyVal) =
              .ok v := h
          injection h2 with h2
          subst h2
          simpa only [wellFormedProxies] using decode_list_wellFormed xs ps hdl
      case none =>
        have h2 : (Except.ok PyVal.none : Except PyError PyVal) = .ok v := h
        injection h2 with h2
        subst h2
        rfl
      case bool b =>
        have h2 : (Except.ok (PyVal.bool b) : Except PyError PyVal) =
            .ok v := h
        injection h2 with h2
        subst h2
        rfl
      case int n =>
        have h2 : (Except.ok (PyVal.int n) : Except PyError PyVal) =
            .ok v := h
        injection h2 with h2
        subst h2
        rfl
      case float x =>
        have h2 : (Except.ok (PyVal.float x) : Except PyError PyVal) =
            .ok v := h
        injection h2 with h2
        subst h2
        rfl
      case npFloat64 x =>
        have h2 : (Except.ok (PyVal.npFloat64 x) : Except PyError PyVal) =
            .ok v := h
        injection h2 with h2
        subst h2
        rfl
      case str s =>
        have h2 : (Except.ok (PyVal.str s) : Except PyError PyVal) =
            .ok v := h
        injection h2 with h2
        subst h2
        rfl
      case tuple xs => exact Except.noConfusion h
      case ndarray xs => exact Except.noConfusion h
      case obj cid => exact Except.noConfusion h
      case geom g => exact Except.noConfusion h
      case other t => exact Except.noConfusion h
    · rw [decode_return_classify_some reply k hc] at h
      obtain ⟨hv, n, hn⟩ := CubitObject_mk_ok reply v h
      subst hv
      simp [wellFormedProxies, isHandleB, hn]

/-- C10 witness: the proxy built from decoding a handle reply stores a
data list classifying as a handle. -/
theorem c10_witness : wellFormedProxies (.obj handle0) = true :=
  c10_proxy_handle_invariant.2.2 handle0 (.obj handle0) rfl

end CubitPy
